import Mathlib

/-!
Shallow embedding of the AI Finance Tracker backend (src/api.py together with
the schema script src/sql.py).  The Python string operations used by the
pipeline (`lower`, `upper`, `strip`, `startswith`, substring `in`) are
modelled as character-list functions; all text involved is ASCII, where
`Char.toLower`/`Char.toUpper` agree with Python `str.lower`/`str.upper`.
The external generative-text service and the SQLite store are modelled as
explicit parameters (an optional reply, and an oracle from statement text to
a store outcome), so that the control flow of `process_query` is a pure
function of those inputs.
-/

/-- Character-list version of Python `hay.startswith(needle)`: decides whether
the first argument is a leading segment of the second. -/
def prefixCheck : List Char → List Char → Bool
  | [], _ => true
  | _ :: _, [] => false
  | a :: as, b :: bs => (a == b) && prefixCheck as bs

/-- Character-list version of Python `needle in hay` (contiguous substring). -/
def substrCheck (needle : List Char) : List Char → Bool
  | [] => needle.isEmpty
  | c :: t => prefixCheck needle (c :: t) || substrCheck needle t

/-- Python `s.lower()` on ASCII text. -/
def pyLower (s : String) : String := ⟨s.data.map Char.toLower⟩

/-- Python `s.upper()` on ASCII text. -/
def pyUpper (s : String) : String := ⟨s.data.map Char.toUpper⟩

/-- The whitespace characters stripped by Python `str.strip()` that can occur
in the program's ASCII text. -/
def pyWhitespace (c : Char) : Bool :=
  (c == ' ') || (c == '\t') || (c == '\n') || (c == '\r')

/-- Python `s.strip()`: drop leading and trailing whitespace. -/
def pyStrip (s : String) : String :=
  ⟨((s.data.dropWhile pyWhitespace).reverse.dropWhile pyWhitespace).reverse⟩

/-- Python `s.startswith(p)`. -/
def pyStartsWith (s p : String) : Bool := prefixCheck p.data s.data

/-- Python `needle in hay` for strings. -/
def pyContains (hay needle : String) : Bool := substrCheck needle.data hay.data

/-- The fixed denylist of `is_spam_input` (api.py lines 114-117). -/
def spam_keywords : List String :=
  ["rob", "hack", "steal", "terrorist", "attack",
   "kill", "murder", "drugs", "bomb", "scam", "fraud"]

/-- `is_spam_input` (api.py lines 111-125): lowercases the input and tests
each denylisted word for substring containment.  The Python `except` branch
returns `True` (deny-by-default); the embedded computation is total, so that
branch has no counterpart here. -/
def is_spam_input (user_input : String) : Bool :=
  spam_keywords.any (fun word => pyContains (pyLower user_input) word)

/-- Outcome of handing one SQL statement to the SQLite store: either a result
set together with `cur.rowcount`, or a raised `sqlite3.Error`.  The row type is
abstract, since `cursor.fetchall()` returns opaque tuples. -/
inductive StoreResult (α : Type) where
  | ok (rows : List α) (rowcount : Int)
  | err
deriving DecidableEq

/-- What `read_sql_query` (api.py lines 157-175) hands back, together with the
observable commit effect: the Python function returns the pair
`(rows, rowcount)` and calls `conn.commit()` only on the non-SELECT branch. -/
structure ExecOutcome (α : Type) where
  rows : Option (List α)
  rowcount : Option Int
  committed : Bool
deriving DecidableEq

/-- `read_sql_query` (api.py lines 157-175): executes one statement, then
branches on `sql.strip().upper().startswith("SELECT")`; a `sqlite3.Error`
is caught and turned into `(None, None)` with no commit. -/
def read_sql_query {α : Type} (store : String → StoreResult α) (sql : String) :
    ExecOutcome α :=
  match store sql with
  | .err => ⟨none, none, false⟩
  | .ok rows cnt =>
    if pyStartsWith (pyUpper (pyStrip sql)) "SELECT" = true then
      ⟨some rows, none, false⟩
    else
      ⟨none, some cnt, true⟩

/-- The response model `QueryResponse` (api.py lines 66-70); unset fields
default to `None`. -/
structure QueryResponse (α : Type) where
  sql : Option String
  data : Option (List α)
  row_count : Option Int
  message : String
deriving DecidableEq

/-- Result of one call to the `/query` endpoint: either a `QueryResponse`
body or a raised `HTTPException`. -/
inductive PipelineOutcome (α : Type) where
  | response (resp : QueryResponse α)
  | httpError (code : Nat) (detail : String)
deriving DecidableEq

/-- Observable effects of one `/query` request: whether the generative
service was invoked, and which statement (if any) was handed to the store. -/
structure Trace where
  aiCalled : Bool
  executedSql : Option String
deriving DecidableEq

/-- The fixed security-alert text of the spam branch (api.py line 198). -/
def blockedMessage : String :=
  "Security Alert: Please don\x27t spam or misuse the app."

/-- Python `f"...{x}..."` rendering of an `Optional[int]`. -/
def reprOptInt : Option Int → String
  | none => "None"
  | some n => toString n

/-- `process_query` (api.py lines 184-231).  The generative call
`get_ai_response` (api.py lines 127-155) returns `None` when the client is
missing or the service errors; it is modelled by the parameter `aiResponse`,
and the store by the oracle `store`.  Python `if not sql:` is true for both
`None` and the empty string. -/
def process_query {α : Type} (aiResponse : Option String)
    (store : String → StoreResult α) (question : String) :
    PipelineOutcome α × Trace :=
  if is_spam_input question = true then
    (.response ⟨none, none, none, blockedMessage⟩, ⟨false, none⟩)
  else
    match aiResponse with
    | none => (.httpError 503 "AI Service unavailable", ⟨true, none⟩)
    | some sql =>
      if sql = "" then
        (.httpError 503 "AI Service unavailable", ⟨true, none⟩)
      else if (pyContains (pyLower sql) "misuse" || pyContains (pyLower sql) "spam") = true then
        (.response ⟨none, none, none, sql⟩, ⟨true, none⟩)
      else
        let exec := read_sql_query store sql
        let msg :=
          if pyStartsWith (pyUpper (pyStrip sql)) "INSERT" = true then
            "Expense successfully added!"
          else if (pyStartsWith (pyUpper (pyStrip sql)) "UPDATE"
              || pyStartsWith (pyUpper (pyStrip sql)) "DELETE") = true then
            "Operation successful. Affected " ++ reprOptInt exec.rowcount ++ " records."
          else
            match exec.rows with
            | some rows => "Found " ++ toString rows.length ++ " records."
            | none => "Error executing query."
        (.response ⟨some sql, exec.rows, exec.rowcount, msg⟩, ⟨true, some sql⟩)


/-- One row of the `Finance` table created by `init_db` (sql.py lines 26-54):
`id INTEGER PRIMARY KEY AUTOINCREMENT`, `purchased`, `categorization`,
`amount REAL`, `date`, optional `payment_type`. -/
structure FinanceRow where
  id : Nat
  purchased : String
  categorization : String
  amount : Rat
  date : String
  payment_type : Option String
deriving DecidableEq

/-- State of the `Finance` table: the stored rows plus the next
AUTOINCREMENT key. -/
structure FinanceDB where
  rows : List FinanceRow
  nextId : Nat
deriving DecidableEq

/-- Effect of a validated `INSERT INTO Finance (purchased, categorization,
amount, date, payment_type) VALUES (...)`: the row is appended with the next
AUTOINCREMENT id. -/
def insertTransaction (db : FinanceDB) (purchased categorization : String)
    (amount : Rat) (date : String) (payment_type : Option String) : FinanceDB :=
  ⟨db.rows ++ [⟨db.nextId, purchased, categorization, amount, date, payment_type⟩],
   db.nextId + 1⟩

/-- Insertion step of sorting `Finance` rows by `id` descending
(`ORDER BY id DESC`). -/
def insertDesc (r : FinanceRow) : List FinanceRow → List FinanceRow
  | [] => [r]
  | s :: t => if s.id ≤ r.id then r :: s :: t else s :: insertDesc r t

/-- Sorting `Finance` rows by `id` descending (`ORDER BY id DESC`). -/
def sortDescById : List FinanceRow → List FinanceRow
  | [] => []
  | r :: t => insertDesc r (sortDescById t)

/-- The row tuples produced by the recent-activity statement
`SELECT id, purchased, amount, categorization, date FROM Finance
ORDER BY id DESC LIMIT 5` (api.py line 262). -/
def RecentTuple : Type := Nat × String × Rat × String × String

instance : DecidableEq RecentTuple := by
  unfold RecentTuple
  infer_instance

/-- Projection of one `Finance` row onto the column list of the
recent-activity SELECT: `id, purchased, amount, categorization, date`. -/
def rowTuple (r : FinanceRow) : RecentTuple :=
  (r.id, r.purchased, r.amount, r.categorization, r.date)

/-- Evaluation of the recent-activity SELECT against a table state. -/
def recentQueryRows (db : FinanceDB) : List RecentTuple :=
  ((sortDescById db.rows).take 5).map rowTuple

/-- The fixed SQL text of the `/recent` endpoint (api.py line 262). -/
def recent_sql : String :=
  "SELECT id, purchased, amount, categorization, date FROM Finance ORDER BY id DESC LIMIT 5"

/-- The fixed SQL text of the `/analytics` endpoint (api.py line 240). -/
def analytics_sql : String :=
  "SELECT categorization, SUM(amount) as total FROM Finance GROUP BY categorization ORDER BY total DESC"

/-- A store holding table state `db`, answering the recent-activity SELECT
(`cur.rowcount` for a SELECT statement is `-1` in sqlite3). -/
def financeStore (db : FinanceDB) : String → StoreResult RecentTuple :=
  fun sql => if sql = recent_sql then .ok (recentQueryRows db) (-1) else .err

/-- Shape of one entry of the `/recent` payload (api.py lines 268-275). -/
structure RecentEntry where
  id : Nat
  item : String
  amount : Rat
  category : String
  date : String
deriving DecidableEq

/-- The dict built from one result tuple in `get_recent_transactions`
(api.py lines 268-275): `{id: row[0], item: row[1], amount: row[2],
category: row[3], date: row[4]}`. -/
def tupleToEntry (w : RecentTuple) : RecentEntry :=
  ⟨w.1, w.2.1, w.2.2.1, w.2.2.2.1, w.2.2.2.2⟩

/-- Shape of one entry of the `/analytics` payload (api.py line 247). -/
structure AnalyticsEntry where
  category : String
  total : Rat
deriving DecidableEq

/-- Body `{"status": ..., "data": ...}` returned by the two read views. -/
structure ViewResponse (α : Type) where
  status : String
  data : List α
deriving DecidableEq

/-- Result of one call to a read-view endpoint: a JSON body, or a raised
`HTTPException` (the `except` branches at api.py lines 251-253 and 281-283). -/
inductive EndpointResult (α : Type) where
  | ok (resp : ViewResponse α)
  | httpError (code : Nat) (detail : String)
deriving DecidableEq

/-- `get_recent_transactions` (api.py lines 255-283) over an arbitrary store:
runs the fixed SELECT through `read_sql_query`, then `if rows:` — the data
branch fires only for a non-`None`, non-empty row list.  The `try` body raises
no exception in the embedding (store errors are already swallowed by
`read_sql_query`), so the 500 branch never fires. -/
def get_recent_endpoint (store : String → StoreResult RecentTuple) :
    EndpointResult RecentEntry :=
  let exec := read_sql_query store recent_sql
  match exec.rows with
  | some (r :: rs) => .ok ⟨"success", (r :: rs).map tupleToEntry⟩
  | _ => .ok ⟨"success", []⟩

/-- The `/recent` endpoint reading from table state `db`. -/
def get_recent_transactions (db : FinanceDB) : EndpointResult RecentEntry :=
  get_recent_endpoint (financeStore db)

/-- `get_analytics` (api.py lines 233-253) over an arbitrary store; same
structure as the `/recent` endpoint, with `{category, total}` entries. -/
def get_analytics (store : String → StoreResult (String × Rat)) :
    EndpointResult AnalyticsEntry :=
  let exec := read_sql_query store analytics_sql
  match exec.rows with
  | some (r :: rs) =>
    .ok ⟨"success", (r :: rs).map (fun w => ⟨w.1, w.2⟩)⟩
  | _ => .ok ⟨"success", []⟩

/-- The destructive schema keywords named by the spec's safety gate
(DROP, TRUNCATE, ALTER, GRANT). -/
def destructive_keywords : List String := ["DROP", "TRUNCATE", "ALTER", "GRANT"]

/-- Spec-side predicate: the statement contains a destructive schema keyword
(checked case-insensitively on the uppercased text). -/
def containsDestructive (sql : String) : Bool :=
  destructive_keywords.any (fun w => pyContains (pyUpper sql) w)

/-- Spec-side predicate: the statement contains a WHERE clause. -/
def hasWhereClause (sql : String) : Bool := pyContains (pyUpper sql) "WHERE"

theorem prefixCheck_iff (n h : List Char) :
    prefixCheck n h = true ↔ ∃ t, n ++ t = h := by
  induction n generalizing h with
  | nil => simp [prefixCheck]
  | cons a as ih =>
    cases h with
    | nil => simp [prefixCheck]
    | cons b bs =>
      simp only [prefixCheck, Bool.and_eq_true, beq_iff_eq, ih bs,
        List.cons_append, List.cons.injEq]
      constructor
      · rintro ⟨hab, t, ht⟩
        exact ⟨t, hab, ht⟩
      · rintro ⟨t, hab, ht⟩
        exact ⟨hab, t, ht⟩

theorem substrCheck_iff (n h : List Char) :
    substrCheck n h = true ↔ ∃ pre post, pre ++ n ++ post = h := by
  induction h with
  | nil =>
    cases n <;> simp [substrCheck]
  | cons c t ih =>
    simp only [substrCheck, Bool.or_eq_true, prefixCheck_iff, ih]
    constructor
    · rintro (⟨post, hpost⟩ | ⟨pre, post, hpp⟩)
      · exact ⟨[], post, by simpa using hpost⟩
      · exact ⟨c :: pre, post, by simp [hpp]⟩
    · rintro ⟨pre, post, hpp⟩
      cases pre with
      | nil => exact Or.inl ⟨post, by simpa using hpp⟩
      | cons p ps =>
        right
        refine ⟨ps, post, ?_⟩
        simpa using congrArg List.tail hpp

/-- C1 counterexample: the synthesized statement `DROP TABLE Finance` contains
a destructive schema keyword, yet `process_query` hands it to the store (the
trace records it as executed); no gate rejects it. -/
theorem C1_counterexample :
    containsDestructive "DROP TABLE Finance" = true ∧
    is_spam_input "show my expenses" = false ∧
    (process_query (some "DROP TABLE Finance")
        (fun _ => StoreResult.ok ([] : List Unit) 0)
        "show my expenses").2.executedSql = some "DROP TABLE Finance" :=
  ⟨by decide, by decide, by decide⟩

/-- C1 (amended): `process_query` applies no destructive-keyword gate.  For a
non-blocked question, any synthesized statement that does not contain the
refusal keywords "misuse" or "spam" — destructive schema keywords included —
is handed to the store and executed. -/
theorem C1_amended_thm {α : Type} (store : String → StoreResult α)
    (question sql : String)
    (hq : is_spam_input question = false)
    (hd : containsDestructive sql = true)
    (href : (pyContains (pyLower sql) "misuse" || pyContains (pyLower sql) "spam") = false) :
    (process_query (some sql) store question).2 = ⟨true, some sql⟩ := by
  have hne : sql ≠ "" := by
    intro h
    subst h
    exact absurd hd (by decide)
  simp [process_query, hq, hne, href]

/-- C1 amended, at a concrete input: the destructive statement
`DROP TABLE Finance` is executed by the pipeline. -/
theorem C1_amended_witness :
    is_spam_input "show my expenses" = false ∧
    containsDestructive "DROP TABLE Finance" = true ∧
    (pyContains (pyLower "DROP TABLE Finance") "misuse"
      || pyContains (pyLower "DROP TABLE Finance") "spam") = false ∧
    (process_query (some "DROP TABLE Finance")
        (fun _ => StoreResult.ok ([] : List Unit) 0)
        "show my expenses").2 = ⟨true, some "DROP TABLE Finance"⟩ :=
  ⟨by decide, by decide, by decide,
   C1_amended_thm _ _ _ (by decide) (by decide) (by decide)⟩

/-- C2 counterexample: the synthesized statement `DELETE FROM Finance` has no
WHERE clause and the request ("remove my last coffee purchase") signals no
bulk action, yet the statement is handed to the store and executed. -/
theorem C2_counterexample :
    pyStartsWith (pyUpper (pyStrip "DELETE FROM Finance")) "DELETE" = true ∧
    hasWhereClause "DELETE FROM Finance" = false ∧
    is_spam_input "remove my last coffee purchase" = false ∧
    (process_query (some "DELETE FROM Finance")
        (fun _ => StoreResult.ok ([] : List Unit) 3)
        "remove my last coffee purchase").2.executedSql = some "DELETE FROM Finance" :=
  ⟨by decide, by decide, by decide, by decide⟩

/-- C2 (amended): `process_query` applies no WHERE-clause gate.  For a
non-blocked question, an UPDATE or DELETE statement without a WHERE clause is
handed to the store and executed whenever it does not contain the refusal
keywords "misuse" or "spam", regardless of any bulk-action intent of the
request. -/
theorem C2_amended_thm {α : Type} (store : String → StoreResult α)
    (question sql : String)
    (hq : is_spam_input question = false)
    (hk : (pyStartsWith (pyUpper (pyStrip sql)) "UPDATE"
      || pyStartsWith (pyUpper (pyStrip sql)) "DELETE") = true)
    (hw : hasWhereClause sql = false)
    (href : (pyContains (pyLower sql) "misuse" || pyContains (pyLower sql) "spam") = false) :
    (process_query (some sql) store question).2 = ⟨true, some sql⟩ := by
  have hne : sql ≠ "" := by
    intro h
    subst h
    exact absurd hk (by decide)
  simp [process_query, hq, hne, href]

/-- C2 amended, at a concrete input: the WHERE-less statement
`DELETE FROM Finance` is executed by the pipeline. -/
theorem C2_amended_witness :
    is_spam_input "remove my last coffee purchase" = false ∧
    (pyStartsWith (pyUpper (pyStrip "DELETE FROM Finance")) "UPDATE"
      || pyStartsWith (pyUpper (pyStrip "DELETE FROM Finance")) "DELETE") = true ∧
    hasWhereClause "DELETE FROM Finance" = false ∧
    (pyContains (pyLower "DELETE FROM Finance") "misuse"
      || pyContains (pyLower "DELETE FROM Finance") "spam") = false ∧
    (process_query (some "DELETE FROM Finance")
        (fun _ => StoreResult.ok ([] : List Unit) 3)
        "remove my last coffee purchase").2 = ⟨true, some "DELETE FROM Finance"⟩ :=
  ⟨by decide, by decide, by decide, by decide,
   C2_amended_thm _ _ _ (by decide) (by decide) (by decide) (by decide)⟩

/-- C3 counterexample: when the store raises on an INSERT, the executor does
return no rows and no count, but the response message is the fixed insertion
confirmation "Expense successfully added!", not the generic failure message
"Error executing query." — the generic message is not produced regardless of
statement kind. -/
theorem C3_counterexample :
    process_query (some "INSERT INTO Finance VALUES (1)")
        (fun _ => (StoreResult.err : StoreResult Unit)) "add one" =
      (.response ⟨some "INSERT INTO Finance VALUES (1)", none, none,
          "Expense successfully added!"⟩,
       ⟨true, some "INSERT INTO Finance VALUES (1)"⟩) ∧
    "Expense successfully added!" ≠ "Error executing query." :=
  ⟨by decide, by decide⟩

/-- C3 (amended): on a store-level error the executor returns no rows, no
count and no commit, and the response attaches no data; but the generic
failure message appears only when the statement is not an INSERT, UPDATE or
DELETE (e.g. a failed SELECT).  A failed INSERT yields the fixed insertion
confirmation, and a failed UPDATE/DELETE yields the success message with
affected count rendered as "None". -/
theorem C3_amended_thm {α : Type} (store : String → StoreResult α)
    (question sql : String)
    (hq : is_spam_input question = false)
    (hne : sql ≠ "")
    (href : (pyContains (pyLower sql) "misuse" || pyContains (pyLower sql) "spam") = false)
    (herr : store sql = .err) :
    read_sql_query store sql = ⟨none, none, false⟩ ∧
    process_query (some sql) store question =
      (.response ⟨some sql, none, none,
          if pyStartsWith (pyUpper (pyStrip sql)) "INSERT" = true then
            "Expense successfully added!"
          else if (pyStartsWith (pyUpper (pyStrip sql)) "UPDATE"
              || pyStartsWith (pyUpper (pyStrip sql)) "DELETE") = true then
            "Operation successful. Affected None records."
          else "Error executing query."⟩,
       ⟨true, some sql⟩) := by
  have hexec : read_sql_query store sql = ⟨none, none, false⟩ := by
    rw [read_sql_query, herr]
  refine ⟨hexec, ?_⟩
  have hmsg : "Operation successful. Affected " ++ reprOptInt (none : Option Int)
      ++ " records." = "Operation successful. Affected None records." := by decide
  simp [process_query, hq, hne, href, hexec, hmsg]

/-- C3 amended, at a concrete input: a failed UPDATE reports
"Operation successful. Affected None records.". -/
theorem C3_amended_witness :
    is_spam_input "set my last expense to 300" = false ∧
    ("UPDATE Finance SET amount = 300" : String) ≠ "" ∧
    (pyContains (pyLower "UPDATE Finance SET amount = 300") "misuse"
      || pyContains (pyLower "UPDATE Finance SET amount = 300") "spam") = false ∧
    read_sql_query (fun _ => (StoreResult.err : StoreResult Unit))
        "UPDATE Finance SET amount = 300" = ⟨none, none, false⟩ ∧
    process_query (some "UPDATE Finance SET amount = 300")
        (fun _ => (StoreResult.err : StoreResult Unit)) "set my last expense to 300" =
      (.response ⟨some "UPDATE Finance SET amount = 300", none, none,
          if pyStartsWith (pyUpper (pyStrip "UPDATE Finance SET amount = 300")) "INSERT" = true then
            "Expense successfully added!"
          else if (pyStartsWith (pyUpper (pyStrip "UPDATE Finance SET amount = 300")) "UPDATE"
              || pyStartsWith (pyUpper (pyStrip "UPDATE Finance SET amount = 300")) "DELETE") = true then
            "Operation successful. Affected None records."
          else "Error executing query."⟩,
       ⟨true, some "UPDATE Finance SET amount = 300"⟩) := by
  have h := C3_amended_thm (fun _ => (StoreResult.err : StoreResult Unit))
    "set my last expense to 300" "UPDATE Finance SET amount = 300"
    (by decide) (by decide) (by decide) rfl
  exact ⟨by decide, by decide, by decide, h.1, h.2⟩

/-- C4: any input containing a denylisted term is blocked: the pipeline
returns the fixed security-alert message with no `sql` field, the generative
service is never invoked and no statement reaches the store. -/
theorem C4_thm {α : Type} (aiResponse : Option String)
    (store : String → StoreResult α) (question : String)
    (hq : ∃ w ∈ spam_keywords, pyContains (pyLower question) w = true) :
    process_query aiResponse store question =
      (.response ⟨none, none, none, blockedMessage⟩, ⟨false, none⟩) := by
  have hs : is_spam_input question = true := by
    rw [is_spam_input, List.any_eq_true]
    obtain ⟨w, hw, hc⟩ := hq
    exact ⟨w, hw, hc⟩
  simp [process_query, hs]

/-- C4 at a concrete input: a question containing "bomb" is blocked with the
fixed security-alert text, no generation call and no store access. -/
theorem C4_witness :
    (∃ w ∈ spam_keywords, pyContains (pyLower "how to make a bomb") w = true) ∧
    process_query (some "SELECT 1") (fun _ => StoreResult.ok ([] : List Unit) 0)
        "how to make a bomb" =
      (.response ⟨none, none, none, blockedMessage⟩, ⟨false, none⟩) :=
  ⟨⟨"bomb", by decide, by decide⟩,
   C4_thm _ _ _ ⟨"bomb", by decide, by decide⟩⟩

/-- C5: the classifier is a deterministic function of the raw text, returning
blocked exactly when the lowercased input contains some member of the fixed
denylist as a contiguous substring.  (The deny-by-default `except` branch of
the Python source returns `True`; the embedded computation is total, so no
error path exists to model.) -/
theorem C5_thm (s : String) :
    is_spam_input s = true ↔
      ∃ w, w ∈ spam_keywords ∧ ∃ pre post, pre ++ w.data ++ post = (pyLower s).data := by
  rw [is_spam_input, List.any_eq_true]
  constructor
  · rintro ⟨w, hw, hc⟩
    exact ⟨w, hw, (substrCheck_iff w.data (pyLower s).data).1 hc⟩
  · rintro ⟨w, hw, hd⟩
    exact ⟨w, hw, (substrCheck_iff w.data (pyLower s).data).2 hd⟩

/-- C6: when the generated text contains the refusal keywords "misuse" or
"spam", the pipeline returns a declined response whose message is the
generated text itself with no `sql` field, and nothing reaches the store. -/
theorem C6_thm {α : Type} (store : String → StoreResult α) (question sql : String)
    (hq : is_spam_input question = false)
    (hr : (pyContains (pyLower sql) "misuse" || pyContains (pyLower sql) "spam") = true) :
    process_query (some sql) store question =
      (.response ⟨none, none, none, sql⟩, ⟨true, none⟩) := by
  have hne : sql ≠ "" := by
    intro h
    subst h
    exact absurd hr (by decide)
  simp [process_query, hq, hne, hr]

/-- C6 at a concrete input: a decline text mentioning "misuse" is surfaced as
the message and never executed. -/
theorem C6_witness :
    is_spam_input "please handle this request" = false ∧
    (pyContains (pyLower "I will not assist with misuse of this app.") "misuse"
      || pyContains (pyLower "I will not assist with misuse of this app.") "spam") = true ∧
    process_query (some "I will not assist with misuse of this app.")
        (fun _ => StoreResult.ok ([] : List Unit) 0) "please handle this request" =
      (.response ⟨none, none, none, "I will not assist with misuse of this app."⟩,
       ⟨true, none⟩) :=
  ⟨by decide, by decide, C6_thm _ _ _ (by decide) (by decide)⟩

/-- C7: when the generative service is unreachable or not configured (the
generation step yields nothing), the pipeline raises the distinct 503
service-unavailable signal with no SQL statement and no store access; this
outcome is a different constructor from any declined response, hence
distinguishable from it. -/
theorem C7_thm {α : Type} (store : String → StoreResult α) (question : String)
    (hq : is_spam_input question = false) :
    process_query none store question =
      (.httpError 503 "AI Service unavailable", ⟨true, none⟩) ∧
    ∀ resp : QueryResponse α,
      (PipelineOutcome.httpError 503 "AI Service unavailable" : PipelineOutcome α) ≠
        .response resp := by
  refine ⟨by simp [process_query, hq], ?_⟩
  intro resp h
  exact PipelineOutcome.noConfusion h

/-- C7 at a concrete input. -/
theorem C7_witness :
    is_spam_input "hello" = false ∧
    (process_query none (fun _ => StoreResult.ok ([] : List Unit) 0) "hello" =
      (.httpError 503 "AI Service unavailable", ⟨true, none⟩) ∧
    ∀ resp : QueryResponse Unit,
      (PipelineOutcome.httpError 503 "AI Service unavailable" : PipelineOutcome Unit) ≠
        .response resp) :=
  ⟨by decide, C7_thm _ _ (by decide)⟩

/-- A statement whose stripped, uppercased text begins with INSERT, UPDATE or
DELETE does not begin with SELECT: the leading characters differ. -/
theorem notSelect_of_write {s : String}
    (h : (pyStartsWith s "INSERT" || pyStartsWith s "UPDATE"
      || pyStartsWith s "DELETE") = true) :
    pyStartsWith s "SELECT" = false := by
  rw [Bool.or_eq_true, Bool.or_eq_true] at h
  have hs : "SELECT".data = 'S' :: "ELECT".data := by decide
  rcases h with (h | h) | h
  · obtain ⟨t, ht⟩ := (prefixCheck_iff "INSERT".data s.data).1 h
    have hi : "INSERT".data = 'I' :: "NSERT".data := by decide
    rw [pyStartsWith, ← ht, hi, List.cons_append, hs, prefixCheck]
    have : ('S' == 'I') = false := by decide
    rw [this, Bool.false_and]
  · obtain ⟨t, ht⟩ := (prefixCheck_iff "UPDATE".data s.data).1 h
    have hu : "UPDATE".data = 'U' :: "PDATE".data := by decide
    rw [pyStartsWith, ← ht, hu, List.cons_append, hs, prefixCheck]
    have : ('S' == 'U') = false := by decide
    rw [this, Bool.false_and]
  · obtain ⟨t, ht⟩ := (prefixCheck_iff "DELETE".data s.data).1 h
    have hd : "DELETE".data = 'D' :: "ELETE".data := by decide
    rw [pyStartsWith, ← ht, hd, List.cons_append, hs, prefixCheck]
    have : ('S' == 'D') = false := by decide
    rw [this, Bool.false_and]

/-- C8: the executor classifies an accepted statement by its leading keyword:
a statement beginning with SELECT takes the read path, returning the full row
set with no count and no commit; a statement beginning with INSERT, UPDATE or
DELETE takes the write path, committing and returning the affected count with
no rows; and in every outcome the returned rows and the returned count are
never both present. -/
theorem C8_thm {α : Type} (store : String → StoreResult α) (sql : String)
    (rows : List α) (cnt : Int)
    (h : store sql = .ok rows cnt) :
    (pyStartsWith (pyUpper (pyStrip sql)) "SELECT" = true →
      read_sql_query store sql = ⟨some rows, none, false⟩) ∧
    ((pyStartsWith (pyUpper (pyStrip sql)) "INSERT"
      || pyStartsWith (pyUpper (pyStrip sql)) "UPDATE"
      || pyStartsWith (pyUpper (pyStrip sql)) "DELETE") = true →
      read_sql_query store sql = ⟨none, some cnt, true⟩) ∧
    (∀ (store₂ : String → StoreResult α) (sql₂ : String),
      ¬((read_sql_query store₂ sql₂).rows.isSome = true ∧
        (read_sql_query store₂ sql₂).rowcount.isSome = true)) := by
  refine ⟨?_, ?_, ?_⟩
  · intro hsel
    rw [read_sql_query, h]
    simp [hsel]
  · intro hw
    have hsel : pyStartsWith (pyUpper (pyStrip sql)) "SELECT" = false :=
      notSelect_of_write hw
    rw [read_sql_query, h]
    simp [hsel]
  · intro store₂ sql₂
    rw [read_sql_query]
    cases store₂ sql₂ with
    | err => simp
    | ok r c =>
      by_cases hsel : pyStartsWith (pyUpper (pyStrip sql₂)) "SELECT" = true
      · simp [hsel]
      · simp [hsel]

/-- C8 at concrete inputs: a SELECT takes the read path and an UPDATE takes
the write path with a commit. -/
theorem C8_witness :
    read_sql_query (fun _ => StoreResult.ok ([0] : List Int) 3)
        "SELECT * FROM Finance" = ⟨some [0], none, false⟩ ∧
    read_sql_query (fun _ => StoreResult.ok ([] : List Int) 2)
        " update Finance SET amount = 1 WHERE id = 1" = ⟨none, some 2, true⟩ :=
  ⟨(C8_thm (fun _ => StoreResult.ok ([0] : List Int) 3)
      "SELECT * FROM Finance" [0] 3 rfl).1 (by decide),
   (C8_thm (fun _ => StoreResult.ok ([] : List Int) 2)
      " update Finance SET amount = 1 WHERE id = 1" [] 2 rfl).2.1 (by decide)⟩

theorem mem_insertDesc {s r : FinanceRow} {l : List FinanceRow} :
    s ∈ insertDesc r l ↔ s = r ∨ s ∈ l := by
  induction l with
  | nil => simp [insertDesc]
  | cons a t ih =>
    rw [insertDesc]
    by_cases h : a.id ≤ r.id
    · simp [h]
    · simp [h, ih]
      tauto

theorem mem_sortDescById {s : FinanceRow} {l : List FinanceRow} :
    s ∈ sortDescById l ↔ s ∈ l := by
  induction l with
  | nil => simp [sortDescById]
  | cons a t ih => simp [sortDescById, mem_insertDesc, ih]

theorem pairwise_insertDesc {r : FinanceRow} {l : List FinanceRow}
    (hl : l.Pairwise (fun a b => b.id ≤ a.id)) :
    (insertDesc r l).Pairwise (fun a b => b.id ≤ a.id) := by
  induction l with
  | nil => simp [insertDesc]
  | cons a t ih =>
    rw [insertDesc]
    rcases List.pairwise_cons.1 hl with ⟨ha, ht⟩
    by_cases h : a.id ≤ r.id
    · rw [if_pos h]
      refine List.pairwise_cons.2 ⟨?_, hl⟩
      intro s hs
      rcases List.mem_cons.1 hs with rfl | hs
      · exact h
      · exact le_trans (ha s hs) h
    · rw [if_neg h]
      refine List.pairwise_cons.2 ⟨?_, ih ht⟩
      intro s hs
      rcases mem_insertDesc.1 hs with rfl | hs
      · exact le_of_not_le h
      · exact ha s hs

theorem pairwise_sortDescById (l : List FinanceRow) :
    (sortDescById l).Pairwise (fun a b => b.id ≤ a.id) := by
  induction l with
  | nil => simp [sortDescById]
  | cons a t ih =>
    rw [sortDescById]
    exact pairwise_insertDesc ih

theorem head_eq_of_max {r : FinanceRow} {l : List FinanceRow}
    (hp : l.Pairwise (fun a b => b.id ≤ a.id))
    (hmem : r ∈ l)
    (hmax : ∀ s ∈ l, s = r ∨ s.id < r.id) :
    l.head? = some r := by
  cases l with
  | nil => cases hmem
  | cons a t =>
    rcases List.pairwise_cons.1 hp with ⟨ha, _⟩
    rcases hmax a (List.mem_cons_self a t) with rfl | halt
    · rfl
    · rcases List.mem_cons.1 hmem with rfl | hmem
      · exact absurd halt (lt_irrefl _)
      · exact absurd (lt_of_lt_of_le halt (ha r hmem)) (lt_irrefl _)

theorem sortDesc_append_max (rows : List FinanceRow) (nr : FinanceRow)
    (hmax : ∀ r ∈ rows, r.id < nr.id) :
    ∃ t, sortDescById (rows ++ [nr]) = nr :: t := by
  have hmem : nr ∈ sortDescById (rows ++ [nr]) := mem_sortDescById.2 (by simp)
  have hpair := pairwise_sortDescById (rows ++ [nr])
  have hmx : ∀ s ∈ sortDescById (rows ++ [nr]), s = nr ∨ s.id < nr.id := by
    intro s hs
    rcases List.mem_append.1 (mem_sortDescById.1 hs) with hs | hs
    · exact Or.inr (hmax s hs)
    · exact Or.inl (by simpa using hs)
  have hhead := head_eq_of_max hpair hmem hmx
  cases hsd : sortDescById (rows ++ [nr]) with
  | nil => rw [hsd] at hhead; cases hhead
  | cons x xs =>
    rw [hsd] at hhead
    simp only [List.head?_cons, Option.some.injEq] at hhead
    exact ⟨xs, by rw [hhead]⟩

/-- C9: after inserting a transaction, the recent-activity view returns it as
the most recent entry; the view always returns at most 5 entries, ordered
most recent (largest id) first, each shaped as `{id, item, amount, category,
date}`. -/
theorem C9_thm (db : FinanceDB) (p c : String) (a : Rat) (d : String)
    (pt : Option String)
    (hinv : ∀ r ∈ db.rows, r.id < db.nextId) :
    ∃ entries : List RecentEntry,
      get_recent_transactions (insertTransaction db p c a d pt) =
        .ok ⟨"success", entries⟩ ∧
      entries.head? = some ⟨db.nextId, p, a, c, d⟩ ∧
      entries.length ≤ 5 ∧
      entries.Pairwise (fun x y => y.id ≤ x.id) := by
  obtain ⟨t, ht⟩ :=
    sortDesc_append_max db.rows ⟨db.nextId, p, c, a, d, pt⟩ hinv
  have hsel : pyStartsWith (pyUpper (pyStrip recent_sql)) "SELECT" = true := by
    decide
  have hstore : financeStore (insertTransaction db p c a d pt) recent_sql =
      .ok (recentQueryRows (insertTransaction db p c a d pt)) (-1) := by
    rw [financeStore]
    simp
  have hrq : recentQueryRows (insertTransaction db p c a d pt) =
      rowTuple ⟨db.nextId, p, c, a, d, pt⟩ :: (t.take 4).map rowTuple := by
    rw [recentQueryRows]
    have hr2 : (insertTransaction db p c a d pt).rows =
        db.rows ++ [⟨db.nextId, p, c, a, d, pt⟩] := rfl
    rw [hr2, ht]
    rfl
  have hexec : read_sql_query (financeStore (insertTransaction db p c a d pt))
      recent_sql =
      ⟨some (rowTuple ⟨db.nextId, p, c, a, d, pt⟩ :: (t.take 4).map rowTuple),
       none, false⟩ := by
    simp [read_sql_query, hstore, hsel, hrq]
  refine ⟨(rowTuple ⟨db.nextId, p, c, a, d, pt⟩ :: (t.take 4).map rowTuple).map
      tupleToEntry, ?_, ?_, ?_, ?_⟩
  · rw [get_recent_transactions, get_recent_endpoint]
    simp only [hexec]
  · rfl
  · simp [List.length_take]
  · have hpair := pairwise_sortDescById (db.rows ++ [⟨db.nextId, p, c, a, d, pt⟩])
    have hp5 : (((⟨db.nextId, p, c, a, d, pt⟩ : FinanceRow) :: t).take 5).Pairwise
        (fun x y => y.id ≤ x.id) := by
      rw [← ht]
      exact hpair.sublist (List.take_sublist 5 _)
    have h5 : ((⟨db.nextId, p, c, a, d, pt⟩ : FinanceRow) :: t).take 5 =
        (⟨db.nextId, p, c, a, d, pt⟩ : FinanceRow) :: t.take 4 := rfl
    rw [h5] at hp5
    rw [← List.map_cons, List.pairwise_map, List.pairwise_map]
    exact hp5.imp (fun h => h)

/-- C9 at a concrete input: inserting a first transaction into an empty table
makes it the most recent entry of the `/recent` view. -/
theorem C9_witness :
    ∃ entries : List RecentEntry,
      get_recent_transactions
          (insertTransaction ⟨[], 1⟩ "pizza" "Food" 250 "2025-01-30" none) =
        .ok ⟨"success", entries⟩ ∧
      entries.head? = some ⟨1, "pizza", 250, "Food", "2025-01-30"⟩ ∧
      entries.length ≤ 5 ∧
      entries.Pairwise (fun x y => y.id ≤ x.id) :=
  C9_thm ⟨[], 1⟩ "pizza" "Food" 250 "2025-01-30" none (by simp)

/-- C10: for the aggregate and recent-activity read views, a store-level
error yields exactly the response of an empty store — `{"status": "success",
"data": []}` — because the executor swallows the sqlite error into a
`(None, None)` result; consequently neither endpoint ever raises its declared
HTTP 500 failure for a store-level outcome: every store behaviour produces a
normal 200 body. -/
theorem C10_thm :
    get_analytics (fun _ => StoreResult.err) = .ok ⟨"success", []⟩ ∧
    get_analytics (fun _ => StoreResult.ok [] 0) = .ok ⟨"success", []⟩ ∧
    get_recent_endpoint (fun _ => StoreResult.err) = .ok ⟨"success", []⟩ ∧
    get_recent_endpoint (fun _ => StoreResult.ok [] 0) = .ok ⟨"success", []⟩ ∧
    (∀ store : String → StoreResult (String × Rat),
      ∃ resp, get_analytics store = .ok resp) ∧
    (∀ store : String → StoreResult RecentTuple,
      ∃ resp, get_recent_endpoint store = .ok resp) := by
  refine ⟨by decide, by decide, by decide, by decide, ?_, ?_⟩
  · intro store
    have hsel : pyStartsWith (pyUpper (pyStrip analytics_sql)) "SELECT" = true := by
      decide
    cases hst : store analytics_sql with
    | err => exact ⟨⟨"success", []⟩, by simp [get_analytics, read_sql_query, hst]⟩
    | ok rows cnt =>
      cases rows with
      | nil =>
        exact ⟨⟨"success", []⟩, by simp [get_analytics, read_sql_query, hst, hsel]⟩
      | cons r rs =>
        exact ⟨⟨"success", (r :: rs).map (fun w => (⟨w.1, w.2⟩ : AnalyticsEntry))⟩,
          by simp [get_analytics, read_sql_query, hst, hsel]⟩
  · intro store
    have hsel : pyStartsWith (pyUpper (pyStrip recent_sql)) "SELECT" = true := by
      decide
    cases hst : store recent_sql with
    | err => exact ⟨⟨"success", []⟩, by simp [get_recent_endpoint, read_sql_query, hst]⟩
    | ok rows cnt =>
      cases rows with
      | nil =>
        exact ⟨⟨"success", []⟩, by simp [get_recent_endpoint, read_sql_query, hst, hsel]⟩
      | cons r rs =>
        exact ⟨⟨"success", (r :: rs).map tupleToEntry⟩,
          by simp [get_recent_endpoint, read_sql_query, hst, hsel]⟩
